import Mathlib

/-!
Verification development for the recipe-extraction service
(`app.py`, `scraper.py`, `config.py`).

The Python code is shallowly embedded: Python/JSON values become the
inductive type `PyVal`, Python dicts become association lists with
first-match lookup, exceptions become `Except`, and every external
effect (the Gemini model, HTTP fetches, the scraping library, the
image-upload collaborator) is passed in as an explicit oracle argument
so that the control flow of the embedded functions is exactly the
control flow of the source.
-/

namespace RecipeScraper

/-- Model of a Python/JSON value as produced by `json.loads` and the
scraping library.  `bool` is kept separate from `int` because Python
distinguishes them for truthiness printing, but note that Python
`isinstance(x, int)` is `True` for booleans (`bool` subclasses `int`);
the predicate `isPyInt` below reflects that.  Floats are outside the
model: no embedded function branches on them. -/
inductive PyVal where
  | none : PyVal
  | bool : Bool → PyVal
  | int : Int → PyVal
  | str : String → PyVal
  | list : List PyVal → PyVal
  | dict : List (String × PyVal) → PyVal

/-- A Python dict: association list, first occurrence of a key wins
(a genuine Python dict has distinct keys, so this is conservative). -/
abbrev PyDict := List (String × PyVal)

/-- Python `d.get(k)` returning `Option`: models both `k in d` and `d[k]`. -/
def plookup (d : PyDict) (k : String) : Option PyVal :=
  match d with
  | [] => Option.none
  | (k2, v) :: rest => if k2 = k then some v else plookup rest k

/-- Python `d.get(k, default)`. -/
def dget (d : PyDict) (k : String) (default : PyVal) : PyVal :=
  (plookup d k).getD default

/-- The keys of a dict, in insertion order. -/
def dictKeys (d : PyDict) : List String := d.map Prod.fst

/-- Python truthiness (`if x:`). -/
def pyTruthy : PyVal → Bool
  | PyVal.none => false
  | PyVal.bool b => b
  | PyVal.int n => n ≠ 0
  | PyVal.str s => s ≠ ""
  | PyVal.list xs => ¬ xs.isEmpty
  | PyVal.dict d => ¬ d.isEmpty

/-- Python `isinstance(x, int)`: true for ints and for booleans
(`bool` is a subclass of `int`). -/
def isPyInt : PyVal → Bool
  | PyVal.int _ => true
  | PyVal.bool _ => true
  | _ => false

/-- Is the value a list each of whose elements is a string? -/
def isStrList : PyVal → Bool
  | PyVal.list xs => xs.all fun x => match x with | PyVal.str _ => true | _ => false
  | _ => false

mutual
/-- Python printing: `pyPrint false` is `str(x)`, `pyPrint true` is
`repr(x)` (container elements are printed with `repr`, which quotes
strings; escaping inside `repr` is elided — no embedded string here
contains a quote character). -/
def pyPrint (reprMode : Bool) : PyVal → String
  | PyVal.none => "None"
  | PyVal.bool b => if b then "True" else "False"
  | PyVal.int n => toString n
  | PyVal.str s => if reprMode then "\x27" ++ s ++ "\x27" else s
  | PyVal.list xs => "[" ++ ", ".intercalate (pyPrintList xs) ++ "]"
  | PyVal.dict d => "\x7b" ++ ", ".intercalate (pyPrintDict d) ++ "\x7d"
termination_by structural v => v

def pyPrintList : List PyVal → List String
  | [] => []
  | v :: rest => pyPrint true v :: pyPrintList rest
termination_by structural v => v

def pyPrintDict : List (String × PyVal) → List String
  | [] => []
  | (k, v) :: rest => ("\x27" ++ k ++ "\x27: " ++ pyPrint true v) :: pyPrintDict rest
termination_by structural v => v
end

/-- Python `str(x)`. -/
def pyStr (v : PyVal) : String := pyPrint false v

/-- Python `s.lower()` (ASCII), modelled character-wise so that it
evaluates inside the kernel. -/
def pyLower (s : String) : String := String.mk (s.data.map Char.toLower)

/-- Python `s.strip()`: leading and trailing whitespace removed. -/
def pyStrip (s : String) : String :=
  String.mk (((s.data.dropWhile Char.isWhitespace).reverse.dropWhile
    Char.isWhitespace).reverse)

/-- Helper for `pySplitNewline`. -/
def splitNewlineAux : List Char → List Char → List String
  | [], acc => [String.mk acc.reverse]
  | c :: rest, acc =>
    if c = '\n' then String.mk acc.reverse :: splitNewlineAux rest []
    else splitNewlineAux rest (c :: acc)

/-- Python `s.split("\n")`. -/
def pySplitNewline (s : String) : List String := splitNewlineAux s.data []

/-- Substring helper on lists of characters. -/
def strContainsAux (pat : List Char) : List Char → Bool
  | [] => pat.isPrefixOf ([] : List Char)
  | c :: rest => pat.isPrefixOf (c :: rest) || strContainsAux pat rest

/-- Python `pat in s` for strings. -/
def strContains (s pat : String) : Bool :=
  strContainsAux pat.toList s.toList

/-- First run of consecutive digits in a character list, with the rest
of the list after the run. -/
def takeDigitRun : List Char → Option (Nat × List Char)
  | [] => Option.none
  | c :: rest =>
    if c.isDigit then
      let run := (c :: rest).takeWhile Char.isDigit
      let after := (c :: rest).dropWhile Char.isDigit
      some (run.foldl (fun acc d => acc * 10 + (d.toNat - 48)) 0, after)
    else takeDigitRun rest

/-- The text between one digit run and the next (or the end). -/
def unitChunk (cs : List Char) : List Char := cs.takeWhile fun c => ¬ c.isDigit

/-- Modelled from the spec: `utils.parse_time_to_minutes` is imported by
`scraper.py` but `utils.py` is absent from the sources.  Spec section 4.9:
free text to integer minutes, tolerant of forms like "1 hour 30 min" and
"PT1H30M"; unparsable input yields 0, never raises.  Each number is
scaled by 60 when the text following it mentions hours (contains an
`h`), else taken as minutes, and the contributions are summed. -/
def parse_time_to_minutes (s : String) : Int :=
  let rec go (cs : List Char) (acc : Nat) (fuel : Nat) : Nat :=
    match fuel with
    | 0 => acc
    | fuel + 1 =>
      match takeDigitRun cs with
      | Option.none => acc
      | some (n, after) =>
        let unit := unitChunk after
        let scaled := if unit.any fun c => c.toLower = 'h' then n * 60 else n
        go after (acc + scaled) fuel
  Int.ofNat (go s.toList 0 s.length)

/-- Modelled from the spec: `utils.parse_servings_to_int` is imported by
`scraper.py` but `utils.py` is absent from the sources.  Spec section 4.9:
"4-6 servings" yields 4 (ranges take the lower bound), "Serves 8" yields
8, unparsable input yields 0, never raises.  The first number found in
the text is returned. -/
def parse_servings_to_int (s : String) : Int :=
  match takeDigitRun s.toList with
  | Option.none => 0
  | some (n, _) => Int.ofNat n

/-- The constant `config.UNIFIED_RECIPE_FORMAT`, the canonical-schema template. -/
def UNIFIED_RECIPE_FORMAT : PyDict :=
  [ ("title", PyVal.str ""),
    ("description", PyVal.str ""),
    ("prep_time", PyVal.int 0),
    ("cook_time", PyVal.int 0),
    ("total_time", PyVal.int 0),
    ("yields", PyVal.int 0),
    ("ingredients", PyVal.list []),
    ("instructions", PyVal.list []),
    ("image", PyVal.dict [("url", PyVal.str ""), ("key", PyVal.none)]),
    ("url", PyVal.str ""),
    ("host", PyVal.str "") ]

/-- The canonical field names, in template order. -/
def canonicalKeys : List String := dictKeys UNIFIED_RECIPE_FORMAT

/-- Python `int(s)` on a string: optional surrounding whitespace,
optional sign, at least one digit; `Option.none` models the
`ValueError` that the caller catches. -/
def pyIntOfString (s : String) : Option Int :=
  let t := s.trim
  let core := if t.startsWith "-" ∨ t.startsWith "+" then t.drop 1 else t
  if core.length > 0 ∧ core.toList.all Char.isDigit then
    let n := core.toList.foldl (fun acc d => acc * 10 + (d.toNat - 48)) 0
    some (if t.startsWith "-" then -(Int.ofNat n) else Int.ofNat n)
  else Option.none

/-- The per-field coercion performed by the loop body of
`scraper.validate_recipe_structure` for one canonical key `key` with
template value `tv`, given the input value (`Option.none` when
`key not in recipe_data`). -/
def coerceField (key : String) (tv : PyVal) (input : Option PyVal) : PyVal :=
  match input with
  | Option.none => tv
  | some v =>
    match tv with
    | PyVal.list _ =>
      match v with
      | PyVal.list xs => PyVal.list xs
      | _ => if pyTruthy v then PyVal.list [PyVal.str (pyStr v)] else PyVal.list []
    | PyVal.int _ =>
      if isPyInt v then v
      else
        match v with
        | PyVal.str s =>
          if key = "prep_time" ∨ key = "cook_time" ∨ key = "total_time" then
            PyVal.int (parse_time_to_minutes s)
          else if key = "yields" then
            PyVal.int (parse_servings_to_int s)
          else
            match pyIntOfString s with
            | some n => PyVal.int n
            | Option.none => PyVal.int 0
        | _ => PyVal.int 0
    | PyVal.dict _ =>
      match v with
      | PyVal.dict d => PyVal.dict d
      | PyVal.str s => PyVal.dict [("url", PyVal.str s), ("key", PyVal.none)]
      | _ => tv
    | _ =>
      match v with
      | PyVal.none => PyVal.str ""
      | _ => PyVal.str (pyStr v)

/-- Embedding of `scraper.validate_recipe_structure`: start from a copy of the
template and coerce every canonical field from the input dict. -/
def validate_recipe_structure (recipe_data : PyDict) : PyDict :=
  UNIFIED_RECIPE_FORMAT.map fun kv => (kv.1, coerceField kv.1 kv.2 (plookup recipe_data kv.1))

/-- The exception kinds the embedded code distinguishes. -/
inductive Err where
  | valueError
  | typeError
  | requestError
  | jsonDecodeError
  | aiError
  | scraperError
deriving DecidableEq, Repr

/-- Result of the image-upload collaborator
(`s3_upload.upload_image_if_configured`, absent from the sources; spec
section 6 gives its contract: it returns a url and an optional key and
never raises).  It is passed to the embedded functions as an oracle. -/
structure UploadResult where
  url : String
  key : Option String

/-- Render an upload result the way the source builds the image dict. -/
def uploadToDict (u : UploadResult) : PyVal :=
  PyVal.dict
    [ ("url", PyVal.str u.url),
      ("key", match u.key with | some k => PyVal.str k | Option.none => PyVal.none) ]

/-- Modelled from the spec: the time parser of the missing `utils.py` is
applied by `format_recipe_scrapers_data` to whatever value
`scraper_data.get` returned.  A string gets the free-text parse, an
integer is already a minute count, anything else is unparsable (0,
never raises — spec section 4.9). -/
def parse_time_pv : PyVal → Int
  | PyVal.str s => parse_time_to_minutes s
  | PyVal.int n => n
  | _ => 0

/-- Modelled from the spec: likewise for the servings parser of the
missing `utils.py`. -/
def parse_servings_pv : PyVal → Int
  | PyVal.str s => parse_servings_to_int s
  | PyVal.int n => n
  | _ => 0

/-- Python `str.capitalize()`: first character upper-cased, the rest
lower-cased. -/
def pyCapitalize (s : String) : String :=
  match s.toList with
  | [] => ""
  | c :: rest => String.mk (c.toUpper :: rest.map Char.toLower)

/-- Python dict assignment `d[k] = v`: replace in place when the key
exists (insertion order kept), append otherwise. -/
def dictSet (d : PyDict) (k : String) (v : PyVal) : PyDict :=
  if (plookup d k).isSome then
    d.map fun kv => if kv.1 = k then (k, v) else kv
  else d ++ [(k, v)]

/-- Python `dict.update`: existing keys get the new value in place,
new keys are appended in the order of the update dict. -/
def dictUpdate (d upd : PyDict) : PyDict :=
  (d.map fun kv => (kv.1, (plookup upd kv.1).getD kv.2))
    ++ upd.filter fun kv => (plookup d kv.1).isNone

/-- Embedding of `scraper.format_recipe_scrapers_data`: copy of the template with
every canonical key assigned, hence the template key order.  `upload`
is the image-upload collaborator oracle. -/
def format_recipe_scrapers_data (scraper_data : PyDict)
    (upload : PyVal → UploadResult) : PyDict :=
  let yields_raw :=
    let y := dget scraper_data "yields" (PyVal.str "")
    if pyTruthy y then y else dget scraper_data "servings" (PyVal.str "")
  let uploaded_image := upload (dget scraper_data "image" (PyVal.str ""))
  let ingredients :=
    match dget scraper_data "ingredients" (PyVal.list []) with
    | PyVal.list xs => PyVal.list ((xs.filter pyTruthy).map fun i => PyVal.str (pyStr i))
    | v => if pyTruthy v then PyVal.list [PyVal.str (pyStr v)] else PyVal.list []
  let instructions :=
    match dget scraper_data "instructions" (PyVal.str "") with
    | PyVal.list xs => PyVal.list ((xs.filter pyTruthy).map fun i => PyVal.str (pyStr i))
    | PyVal.str s =>
      PyVal.list ((((pySplitNewline s).map pyStrip).filter fun t => t ≠ "").map PyVal.str)
    | _ => PyVal.list []
  [ ("title", dget scraper_data "title" (PyVal.str "")),
    ("description", dget scraper_data "description" (PyVal.str "")),
    ("prep_time", PyVal.int (parse_time_pv (dget scraper_data "prep_time" (PyVal.str "")))),
    ("cook_time", PyVal.int (parse_time_pv (dget scraper_data "cook_time" (PyVal.str "")))),
    ("total_time", PyVal.int (parse_time_pv (dget scraper_data "total_time" (PyVal.str "")))),
    ("yields", PyVal.int (parse_servings_pv yields_raw)),
    ("ingredients", ingredients),
    ("instructions", instructions),
    ("image", uploadToDict uploaded_image),
    ("url", dget scraper_data "url" (PyVal.str "")),
    ("host", dget scraper_data "host" (PyVal.str "")) ]

/-- Embedding of `scraper.try_recipe_scraper`: the scraping library call
(`scrape_me(url).to_json()`) is the oracle `scrapeMeResult`; its
exception is logged and re-raised, success is formatted. -/
def try_recipe_scraper (scrapeMeResult : Except Err PyDict)
    (upload : PyVal → UploadResult) : Except Err PyDict :=
  match scrapeMeResult with
  | Except.error e => Except.error e
  | Except.ok raw => Except.ok (format_recipe_scrapers_data raw upload)

/-- Embedding of `scraper.get_video_metadata`: the oEmbed HTTP call is the oracle
`oembedResp` (`Except.error` also covers a non-2xx response, which
leaves the defaults in place just as an exception does). -/
def get_video_metadata (platform : String)
    (oembedResp : Except Err PyDict) : PyDict :=
  let base : PyDict :=
    [("title", PyVal.str ""), ("author", PyVal.str ""), ("thumbnail_url", PyVal.str "")]
  if platform = "tiktok" ∨ platform = "youtube" then
    match oembedResp with
    | Except.error _ => base
    | Except.ok d =>
      [ ("title", dget d "title" (PyVal.str "")),
        ("author", dget d "author_name" (PyVal.str "")),
        ("thumbnail_url", dget d "thumbnail_url" (PyVal.str "")) ]
  else base

/-- Embedding of `scraper.try_video_extraction`.  Here `aiResp` is the Gemini call
followed by `json.loads`: an AI failure or a JSON parse error is
`Except.error`; JSON that parses to a non-object makes the validator
raise on its string-keyed operations, modelled as `Err.typeError`. -/
def try_video_extraction (url platform : String) (geminiKey : Option String)
    (oembedResp : Except Err PyDict) (upload : PyVal → UploadResult)
    (aiResp : Except Err PyVal) : Except Err PyDict :=
  match geminiKey with
  | Option.none => Except.error Err.valueError
  | some _ =>
    let metadata := get_video_metadata platform oembedResp
    let uploaded_image := upload (dget metadata "thumbnail_url" (PyVal.str ""))
    let platform_name := pyCapitalize platform
    match aiResp with
    | Except.error e => Except.error e
    | Except.ok (PyVal.dict result) =>
      let validated := validate_recipe_structure result
      let v1 := dictSet validated "url" (PyVal.str url)
      let v2 := dictSet v1 "host" (PyVal.str platform_name)
      let v3 := dictSet v2 "image" (uploadToDict uploaded_image)
      Except.ok v3
    | Except.ok _ => Except.error Err.typeError

/-- Embedding of `scraper.is_recipe_data`. -/
def is_recipe_data (data : PyDict) : Bool :=
  let item_type := dget data "@type" (PyVal.str "")
  let memberHit : Bool :=
    match item_type with
    | PyVal.str s => s == "Recipe" || s == "FoodRecipe"
    | _ => false
  if memberHit || strContains (pyLower (pyStr item_type)) "recipe" then true
  else
    ["recipeIngredient", "ingredients", "recipeInstructions"].any
      fun f => (plookup data f).isSome

/-- First dict entry of a list satisfying `is_recipe_data` (the inner
loops of `try_json_ld` over a top-level array and over `@graph`). -/
def firstRecipeEntry (items : List PyVal) : Option PyVal :=
  items.findSome? fun it =>
    match it with
    | PyVal.dict d => if is_recipe_data d then some (PyVal.dict d) else Option.none
    | _ => Option.none

/-- One iteration of the script-block loop of `scraper.try_json_ld`,
applied to the parsed JSON of one block.  `Except.error` is the
`AttributeError` raised by `item_type.lower()` when a top-level dict
has a non-string `@type`; the except clause of the loop skips the block. -/
def jsonLdScanBlock (v : PyVal) : Except Unit (Option PyVal) :=
  match v with
  | PyVal.list items => Except.ok (firstRecipeEntry items)
  | PyVal.dict data =>
    let item_type := dget data "@type" (PyVal.str "")
    let memberHit : Bool :=
      match item_type with
      | PyVal.str s => s == "Recipe" || s == "FoodRecipe"
      | _ => false
    if memberHit then Except.ok (some (PyVal.dict data))
    else
      match item_type with
      | PyVal.str s =>
        if strContains (pyLower s) "recipe" then Except.ok (some (PyVal.dict data))
        else
          match plookup data "@graph" with
          | some (PyVal.list graph) => Except.ok (firstRecipeEntry graph)
          | _ =>
            if is_recipe_data data then Except.ok (some (PyVal.dict data))
            else Except.ok Option.none
      | _ => Except.error ()
  | _ => Except.ok Option.none

/-- The script-scanning loop of `scraper.try_json_ld`: each element of
`blocks` is the `json.loads` outcome of one
`script type="application/ld+json"` block (`Except.error` is a JSON
parse failure, skipped).  The first match stops the scan. -/
def try_json_ld_scan (blocks : List (Except Unit PyVal)) : Option PyVal :=
  match blocks with
  | [] => Option.none
  | b :: rest =>
    match b with
    | Except.error _ => try_json_ld_scan rest
    | Except.ok v =>
      match jsonLdScanBlock v with
      | Except.error _ => try_json_ld_scan rest
      | Except.ok (some r) => some r
      | Except.ok Option.none => try_json_ld_scan rest

/-- The type part of the recipe predicate as the claim words it:
`@type` equals Recipe/FoodRecipe or contains "recipe"
case-insensitively. -/
def claimTypeHit (s : String) : Bool :=
  s == "Recipe" || s == "FoodRecipe" || strContains (pyLower s) "recipe"

/-- The per-block scan as described by the specification text of the
embedded-structured-data strategy (claim wording, for comparison with
`jsonLdScanBlock`): a list is scanned for entries satisfying the
recipe predicate; a dict has its `@type` checked directly, else its
`@graph` array is scanned with the same predicate, else the predicate
is applied to the dict itself. -/
def claimScanBlock (v : PyVal) : Option PyVal :=
  match v with
  | PyVal.list items => firstRecipeEntry items
  | PyVal.dict data =>
    let direct : Bool :=
      match dget data "@type" (PyVal.str "") with
      | PyVal.str s => claimTypeHit s
      | _ => false
    if direct then some (PyVal.dict data)
    else
      match plookup data "@graph" with
      | some (PyVal.list graph) => firstRecipeEntry graph
      | _ => if is_recipe_data data then some (PyVal.dict data) else Option.none
  | _ => Option.none

/-- The whole scan as described by the specification text: malformed
blocks skipped, first match wins. -/
def claimScan (blocks : List (Except Unit PyVal)) : Option PyVal :=
  blocks.findSome? fun b =>
    match b with
    | Except.error _ => Option.none
    | Except.ok v => claimScanBlock v

/-- Embedding of `scraper.detect_language`: a missing key and any exception from
the Gemini call (oracle `aiResp`) both degrade to "unknown"; a reply is
stripped and lower-cased. -/
def detect_language (geminiKey : Option String)
    (aiResp : Except Err String) : String :=
  match geminiKey with
  | Option.none => "unknown"
  | some _ =>
    match aiResp with
    | Except.ok text => pyLower (pyStrip text)
    | Except.error _ => "unknown"

/-- The four fields `translate_recipe` extracts for translation. -/
def translatableFields : List String :=
  ["title", "description", "ingredients", "instructions"]

/-- Embedding of `scraper.translate_recipe`.  Here `detectResp` is the detection call
oracle; `translateResp` is the translation Gemini call followed by
`json.loads`, so `Except.error` covers the AI-call failure, the JSON
parse error, and a response that is not a JSON object (on which
`dict.update` raises); all are logged and re-raised by the source. -/
def translate_recipe (recipe_data : PyDict) (target_language : String)
    (geminiKey : Option String) (detectResp : Except Err String)
    (translateResp : Except Err PyDict) : Except Err PyDict :=
  match geminiKey with
  | Option.none => Except.error Err.valueError
  | some _ =>
    let current_language := detect_language geminiKey detectResp
    if pyLower current_language = pyLower target_language then
      Except.ok recipe_data
    else
      match translateResp with
      | Except.error e => Except.error e
      | Except.ok translated_data => Except.ok (dictUpdate recipe_data translated_data)

/-- The three website extraction strategies, in fallback order. -/
inductive Strat where
  | recipeScraper
  | jsonLd
  | gemini
deriving DecidableEq, Repr

/-- Outcome of the website fallback chain plus the list of strategies
that were invoked, in invocation order. -/
structure FallbackOutcome where
  result : Except Err (PyDict × String)
  invoked : List Strat

/-- The nested try/except chain of `app.scrape_recipe` for websites:
`r1`, `r2`, `r3` are the outcomes of `try_recipe_scraper`,
`try_json_ld`, `try_gemini_extraction`.  Each `except Exception`
swallows the earlier failure and moves on; the last failure is not
caught here. -/
def websiteFallback (r1 r2 r3 : Except Err PyDict) : FallbackOutcome :=
  match r1 with
  | Except.ok d => ⟨Except.ok (d, "recipe-scraper"), [Strat.recipeScraper]⟩
  | Except.error _ =>
    match r2 with
    | Except.ok d => ⟨Except.ok (d, "json-ld"), [Strat.recipeScraper, Strat.jsonLd]⟩
    | Except.error _ =>
      match r3 with
      | Except.ok d =>
        ⟨Except.ok (d, "gemini"), [Strat.recipeScraper, Strat.jsonLd, Strat.gemini]⟩
      | Except.error e =>
        ⟨Except.error e, [Strat.recipeScraper, Strat.jsonLd, Strat.gemini]⟩

/-- `app.scrape_recipe` after platform classification: video platforms
run the video strategy once, websites run the fallback chain; then, if
the target language is not english (case-insensitive), the record is
translated and the source label suffixed.  Returns the record and the
source label of the success response; `Except.error` becomes the
HTTP 500 error response. -/
def scrape_recipe (url language platform : String)
    (videoRes r1 r2 r3 : Except Err PyDict)
    (geminiKey : Option String) (detectResp : Except Err String)
    (translateResp : Except Err PyDict) : Except Err (PyDict × String) :=
  let extraction : Except Err (PyDict × String) :=
    if platform = "tiktok" ∨ platform = "youtube" then
      match videoRes with
      | Except.ok d => Except.ok (d, platform ++ "-video")
      | Except.error e => Except.error e
    else (websiteFallback r1 r2 r3).result
  match extraction with
  | Except.error e => Except.error e
  | Except.ok (data, source) =>
    if pyLower language ≠ "english" then
      match translate_recipe data language geminiKey detectResp translateResp with
      | Except.error e => Except.error e
      | Except.ok data2 => Except.ok (data2, source ++ "-translated-" ++ language)
    else Except.ok (data, source)

/-- The image sub-record of the canonical schema (spec section 3):
a url and an optional opaque storage key. -/
structure ImageRec where
  url : String
  key : Option String

/-- Its dict rendering. -/
def imageToDict (im : ImageRec) : PyVal :=
  PyVal.dict
    [ ("url", PyVal.str im.url),
      ("key", match im.key with | some k => PyVal.str k | Option.none => PyVal.none) ]

/-- A record satisfying the canonical schema of spec section 3: every
canonical field present with its canonical type. -/
structure CanonicalRecord where
  title : String
  description : String
  prep_time : Nat
  cook_time : Nat
  total_time : Nat
  yields : Nat
  ingredients : List String
  instructions : List String
  image : ImageRec
  url : String
  host : String

/-- Rendering of a canonical record as a Python dict in the canonical
key order. -/
def CanonicalRecord.toDict (r : CanonicalRecord) : PyDict :=
  [ ("title", PyVal.str r.title),
    ("description", PyVal.str r.description),
    ("prep_time", PyVal.int (Int.ofNat r.prep_time)),
    ("cook_time", PyVal.int (Int.ofNat r.cook_time)),
    ("total_time", PyVal.int (Int.ofNat r.total_time)),
    ("yields", PyVal.int (Int.ofNat r.yields)),
    ("ingredients", PyVal.list (r.ingredients.map PyVal.str)),
    ("instructions", PyVal.list (r.instructions.map PyVal.str)),
    ("image", imageToDict r.image),
    ("url", PyVal.str r.url),
    ("host", PyVal.str r.host) ]

/-! ## Helper lemmas -/

theorem plookup_eq_none_of_not_mem {d : PyDict} {k : String}
    (h : k ∉ dictKeys d) : plookup d k = Option.none := by
  induction d with
  | nil => rfl
  | cons kv rest ih =>
    simp only [dictKeys, List.map_cons, List.mem_cons, not_or] at h
    obtain ⟨h1, h2⟩ := h
    simp only [plookup]
    rw [if_neg fun hh => h1 hh.symm]
    exact ih (by simpa [dictKeys] using h2)

theorem plookup_isSome_of_mem {d : PyDict} {k : String}
    (h : k ∈ dictKeys d) : (plookup d k).isSome := by
  induction d with
  | nil => simp [dictKeys] at h
  | cons kv rest ih =>
    simp only [dictKeys, List.map_cons, List.mem_cons] at h
    simp only [plookup]
    by_cases hk : kv.1 = k
    · rw [if_pos hk]; rfl
    · rw [if_neg hk]
      exact ih (by simpa [dictKeys] using h.resolve_left fun hh => hk hh.symm)

theorem plookup_map_assoc (l : PyDict) (f : String → PyVal → PyVal) (k : String) :
    plookup (l.map fun kv => (kv.1, f kv.1 kv.2)) k = (plookup l k).map (f k) := by
  induction l with
  | nil => rfl
  | cons kv rest ih =>
    simp only [List.map_cons, plookup]
    by_cases h : kv.1 = k
    · rw [if_pos h, if_pos h, h]; rfl
    · rw [if_neg h, if_neg h]; exact ih

theorem plookup_validate (d : PyDict) (k : String) (tv : PyVal)
    (h : plookup UNIFIED_RECIPE_FORMAT k = some tv) :
    plookup (validate_recipe_structure d) k
      = some (coerceField k tv (plookup d k)) := by
  have hmap := plookup_map_assoc UNIFIED_RECIPE_FORMAT
    (fun a b => coerceField a b (plookup d a)) k
  rw [h] at hmap
  exact hmap

theorem ite_list_shape (c : Prop) [Decidable c] (a b : List PyVal) :
    ∃ xs, (if c then PyVal.list a else PyVal.list b) = PyVal.list xs := by
  by_cases h : c
  · exact ⟨a, if_pos h⟩
  · exact ⟨b, if_neg h⟩

theorem coerceField_list_shape (k : String) (input : Option PyVal) :
    ∃ xs, coerceField k (PyVal.list []) input = PyVal.list xs := by
  cases input with
  | none => exact ⟨[], rfl⟩
  | some v =>
    cases v with
    | list xs => exact ⟨xs, rfl⟩
    | none =>
      exact ite_list_shape (pyTruthy PyVal.none = true)
        [PyVal.str (pyStr PyVal.none)] []
    | bool b =>
      exact ite_list_shape (pyTruthy (PyVal.bool b) = true)
        [PyVal.str (pyStr (PyVal.bool b))] []
    | int n =>
      exact ite_list_shape (pyTruthy (PyVal.int n) = true)
        [PyVal.str (pyStr (PyVal.int n))] []
    | str s =>
      exact ite_list_shape (pyTruthy (PyVal.str s) = true)
        [PyVal.str (pyStr (PyVal.str s))] []
    | dict dd =>
      exact ite_list_shape (pyTruthy (PyVal.dict dd) = true)
        [PyVal.str (pyStr (PyVal.dict dd))] []

theorem coerceField_int_shape (k : String) (input : Option PyVal) :
    isPyInt (coerceField k (PyVal.int 0) input) = true := by
  cases input with
  | none => rfl
  | some v =>
    cases v with
    | none => rfl
    | bool b => rfl
    | int n => rfl
    | list xs => rfl
    | dict dd => rfl
    | str s =>
      by_cases h1 : k = "prep_time" ∨ k = "cook_time" ∨ k = "total_time"
      · simp [coerceField, h1, isPyInt]
      · by_cases h2 : k = "yields"
        · simp [coerceField, h1, h2, isPyInt]
        · cases hh : pyIntOfString s <;> simp [coerceField, h1, h2, hh, isPyInt]

theorem coerceField_dict_shape (k : String) (tvd : PyDict) (input : Option PyVal) :
    ∃ dd, coerceField k (PyVal.dict tvd) input = PyVal.dict dd := by
  cases input with
  | none => exact ⟨tvd, rfl⟩
  | some v =>
    cases v with
    | none => exact ⟨tvd, rfl⟩
    | bool b => exact ⟨tvd, rfl⟩
    | int n => exact ⟨tvd, rfl⟩
    | str s => exact ⟨[("url", PyVal.str s), ("key", PyVal.none)], rfl⟩
    | list xs => exact ⟨tvd, rfl⟩
    | dict dd => exact ⟨dd, rfl⟩

theorem coerceField_str_shape (k : String) (input : Option PyVal) :
    ∃ s, coerceField k (PyVal.str "") input = PyVal.str s := by
  cases input with
  | none => exact ⟨"", rfl⟩
  | some v =>
    cases v with
    | none => exact ⟨"", rfl⟩
    | bool b => exact ⟨pyStr (PyVal.bool b), rfl⟩
    | int n => exact ⟨pyStr (PyVal.int n), rfl⟩
    | str s => exact ⟨pyStr (PyVal.str s), rfl⟩
    | list xs => exact ⟨pyStr (PyVal.list xs), rfl⟩
    | dict dd => exact ⟨pyStr (PyVal.dict dd), rfl⟩

theorem validate_list_field (d : PyDict) (k : String)
    (h : plookup UNIFIED_RECIPE_FORMAT k = some (PyVal.list [])) :
    ∃ xs, plookup (validate_recipe_structure d) k = some (PyVal.list xs) := by
  obtain ⟨xs, hxs⟩ := coerceField_list_shape k (plookup d k)
  exact ⟨xs, by rw [plookup_validate d k _ h, hxs]⟩

theorem validate_int_field (d : PyDict) (k : String)
    (h : plookup UNIFIED_RECIPE_FORMAT k = some (PyVal.int 0)) :
    ∃ v, plookup (validate_recipe_structure d) k = some v ∧ isPyInt v = true :=
  ⟨coerceField k (PyVal.int 0) (plookup d k), plookup_validate d k _ h,
    coerceField_int_shape k (plookup d k)⟩

theorem validate_str_field (d : PyDict) (k : String)
    (h : plookup UNIFIED_RECIPE_FORMAT k = some (PyVal.str "")) :
    ∃ s, plookup (validate_recipe_structure d) k = some (PyVal.str s) := by
  obtain ⟨s, hs⟩ := coerceField_str_shape k (plookup d k)
  exact ⟨s, by rw [plookup_validate d k _ h, hs]⟩

/-! ## Claims -/

/-- C2 counterexample: the normalizer passes an input list through
unchanged, so a list field of the output need not be a list of
strings — `validate_recipe_structure` applied to a dict whose
`ingredients` is the list `[1]` returns `[1]` there, which is not a
list of strings. -/
theorem c2_counterexample :
    plookup (validate_recipe_structure [("ingredients", PyVal.list [PyVal.int 1])])
        "ingredients" = some (PyVal.list [PyVal.int 1])
    ∧ isStrList (PyVal.list [PyVal.int 1]) = false :=
  ⟨rfl, rfl⟩

/-- C2 (amended): for every input dict the normalizer returns a record
with no canonical field missing, every list field a list (passed
through as-is when the input already supplies a list, so its elements
are arbitrary values, not necessarily strings), every integer field an
integer in the Python sense (`isinstance(x, int)`, which includes
booleans), the image field a dict, and every string field a string;
the function is total (never raises). -/
theorem c2_normalizer_typing (d : PyDict) :
    dictKeys (validate_recipe_structure d) = canonicalKeys
    ∧ (∀ k, k ∈ ["ingredients", "instructions"] →
        ∃ xs, plookup (validate_recipe_structure d) k = some (PyVal.list xs))
    ∧ (∀ k, k ∈ ["prep_time", "cook_time", "total_time", "yields"] →
        ∃ v, plookup (validate_recipe_structure d) k = some v ∧ isPyInt v = true)
    ∧ (∃ dd, plookup (validate_recipe_structure d) "image" = some (PyVal.dict dd))
    ∧ (∀ k, k ∈ ["title", "description", "url", "host"] →
        ∃ s, plookup (validate_recipe_structure d) k = some (PyVal.str s)) := by
  refine ⟨rfl, ?_, ?_, ?_, ?_⟩
  · intro k hk
    have hmem : k = "ingredients" ∨ k = "instructions" := by simpa using hk
    rcases hmem with rfl | rfl <;> exact validate_list_field d _ rfl
  · intro k hk
    have hmem : k = "prep_time" ∨ k = "cook_time" ∨ k = "total_time" ∨ k = "yields" := by
      simpa using hk
    rcases hmem with rfl | rfl | rfl | rfl <;> exact validate_int_field d _ rfl
  · obtain ⟨dd, hdd⟩ := coerceField_dict_shape "image"
      [("url", PyVal.str ""), ("key", PyVal.none)] (plookup d "image")
    exact ⟨dd, by rw [plookup_validate d "image" _ rfl, hdd]⟩
  · intro k hk
    have hmem : k = "title" ∨ k = "description" ∨ k = "url" ∨ k = "host" := by
      simpa using hk
    rcases hmem with rfl | rfl | rfl | rfl <;> exact validate_str_field d _ rfl

/-- C2 witness: the amended typing theorem instantiated at a concrete
raw dict, with every membership hypothesis discharged. -/
theorem c2_witness :
    (∃ xs, plookup (validate_recipe_structure [("ingredients", PyVal.int 7)])
        "ingredients" = some (PyVal.list xs))
    ∧ (∃ v, plookup (validate_recipe_structure [("ingredients", PyVal.int 7)])
        "prep_time" = some v ∧ isPyInt v = true)
    ∧ (∃ s, plookup (validate_recipe_structure [("ingredients", PyVal.int 7)])
        "title" = some (PyVal.str s)) :=
  ⟨(c2_normalizer_typing _).2.1 "ingredients" (by decide),
   (c2_normalizer_typing _).2.2.1 "prep_time" (by decide),
   (c2_normalizer_typing _).2.2.2.2 "title" (by decide)⟩

/-- C3: the normalizer is the identity on records that already satisfy
the canonical schema — every canonical field present with its
canonical type, rendered in the canonical key order. -/
theorem c3_normalize_idempotent (r : CanonicalRecord) :
    validate_recipe_structure r.toDict = r.toDict := by
  obtain ⟨title, description, prep, cook, total, yields, ingredients, instructions,
    image, url, host⟩ := r
  rfl

/-- C10: the normalizer output has exactly the canonical key set — its
keys are the canonical keys in order, and any non-canonical key of the
input is absent from the output. -/
theorem c10_output_keys_exactly_canonical (d : PyDict) :
    dictKeys (validate_recipe_structure d) = canonicalKeys
    ∧ ∀ k, k ∉ canonicalKeys → plookup (validate_recipe_structure d) k = Option.none := by
  refine ⟨rfl, fun k hk => ?_⟩
  exact plookup_eq_none_of_not_mem (by rwa [show dictKeys (validate_recipe_structure d) = canonicalKeys from rfl])

/-- C10 witness: a junk key of the input does not appear in the
output. -/
theorem c10_witness :
    plookup (validate_recipe_structure [("junk", PyVal.int 1)]) "junk" = Option.none :=
  (c10_output_keys_exactly_canonical [("junk", PyVal.int 1)]).2 "junk" (by decide)

/-- C1: for websites the orchestrator runs the strategies in the strict
order structured-scraper, JSON-LD, AI-full-page; an earlier success
stops the chain (later strategies never invoked), an earlier failure is
swallowed (the outcome does not depend on which exception it was) and
the next strategy is invoked, and only the failure of the final strategy
propagates. -/
theorem c1_website_fallback_order (r1 r2 r3 : Except Err PyDict) :
    (∀ d, r1 = Except.ok d →
      websiteFallback r1 r2 r3
        = ⟨Except.ok (d, "recipe-scraper"), [Strat.recipeScraper]⟩)
    ∧ (∀ e e2, websiteFallback (Except.error e) r2 r3
        = websiteFallback (Except.error e2) r2 r3)
    ∧ (∀ e d, r2 = Except.ok d →
      websiteFallback (Except.error e) r2 r3
        = ⟨Except.ok (d, "json-ld"), [Strat.recipeScraper, Strat.jsonLd]⟩)
    ∧ (∀ e e2 d, r3 = Except.ok d →
      websiteFallback (Except.error e) (Except.error e2) r3
        = ⟨Except.ok (d, "gemini"),
            [Strat.recipeScraper, Strat.jsonLd, Strat.gemini]⟩)
    ∧ (∀ e e2 e3,
      websiteFallback (Except.error e) (Except.error e2) (Except.error e3)
        = ⟨Except.error e3, [Strat.recipeScraper, Strat.jsonLd, Strat.gemini]⟩)
    ∧ (∀ e, (websiteFallback r1 r2 r3).result = Except.error e →
        (∃ e1, r1 = Except.error e1) ∧ (∃ e2, r2 = Except.error e2)
          ∧ r3 = Except.error e) := by
  refine ⟨?_, ?_, ?_, ?_, ?_, ?_⟩
  · rintro d rfl; rfl
  · intro e e2; rfl
  · rintro e d rfl; rfl
  · rintro e e2 d rfl; rfl
  · intro e e2 e3; rfl
  · intro e he
    cases r1 with
    | ok d => simp [websiteFallback] at he
    | error e1 =>
      cases r2 with
      | ok d => simp [websiteFallback] at he
      | error e2 =>
        cases r3 with
        | ok d => simp [websiteFallback] at he
        | error e3 =>
          have : e3 = e := by simpa [websiteFallback] using he
          exact ⟨⟨e1, rfl⟩, ⟨e2, rfl⟩, by rw [this]⟩

/-- C1 witness: the fallback chain at concrete strategy outcomes —
first success short-circuits, middle success after one failure, and
exhaustion propagating exactly the last failure. -/
theorem c1_witness :
    websiteFallback (Except.ok ([] : PyDict)) (Except.error Err.aiError)
        (Except.error Err.aiError)
      = ⟨Except.ok ([], "recipe-scraper"), [Strat.recipeScraper]⟩
    ∧ websiteFallback (Except.error Err.requestError) (Except.ok ([] : PyDict))
        (Except.error Err.aiError)
      = ⟨Except.ok ([], "json-ld"), [Strat.recipeScraper, Strat.jsonLd]⟩
    ∧ websiteFallback (Except.error Err.requestError) (Except.error Err.valueError)
        (Except.error Err.jsonDecodeError)
      = ⟨Except.error Err.jsonDecodeError,
          [Strat.recipeScraper, Strat.jsonLd, Strat.gemini]⟩ :=
  ⟨(c1_website_fallback_order (Except.ok []) (Except.error Err.aiError)
      (Except.error Err.aiError)).1 [] rfl,
   (c1_website_fallback_order (Except.error Err.requestError) (Except.ok [])
      (Except.error Err.aiError)).2.2.1 Err.requestError [] rfl,
   (c1_website_fallback_order (Except.error Err.requestError)
      (Except.error Err.valueError)
      (Except.error Err.jsonDecodeError)).2.2.2.2.1 Err.requestError
      Err.valueError Err.jsonDecodeError⟩

/-- C8: when the detected language equals the target language
(case-insensitively), `translate_recipe` returns the input record
unchanged, whatever the translation oracle would have answered. -/
theorem c8_translation_noop (recipe : PyDict) (target gk : String)
    (detectResp : Except Err String) (translateResp : Except Err PyDict)
    (h : pyLower (detect_language (some gk) detectResp) = pyLower target) :
    translate_recipe recipe target (some gk) detectResp translateResp
      = Except.ok recipe := by
  simp only [translate_recipe]
  rw [if_pos h]

/-- C8 witness: a recipe detected as " English " (stripped,
lower-cased) with target "English" is returned unchanged even though
the translation oracle would fail. -/
theorem c8_witness :
    translate_recipe [("title", PyVal.str "Pancakes")] "English" (some "key")
        (Except.ok " English ") (Except.error Err.aiError)
      = Except.ok [("title", PyVal.str "Pancakes")] :=
  c8_translation_noop [("title", PyVal.str "Pancakes")] "English" "key"
    (Except.ok " English ") (Except.error Err.aiError) (by decide)

/-- C4 (amended): the failures of the Translation Step that do
propagate — a missing Gemini key raises before any call; once
translation really runs, an AI-call error or a JSON parse error of the
AI response (both modelled by the translation oracle erring) is
re-raised; and an erring `translate_recipe` makes the whole
`scrape_recipe` request fail with that error.  (A failure of the
language-detection call itself is the exception: see the
counterexample.) -/
theorem c4_translation_failure_propagates
    (recipe : PyDict) (target : String) (detectResp : Except Err String)
    (translateResp : Except Err PyDict) (gk : String) (e : Err)
    (url language : String) (d : PyDict)
    (videoRes r2 r3 : Except Err PyDict) (gko : Option String)
    (detectResp2 : Except Err String) (translateResp2 : Except Err PyDict) :
    (translate_recipe recipe target Option.none detectResp translateResp
        = Except.error Err.valueError)
    ∧ (pyLower (detect_language (some gk) detectResp) ≠ pyLower target →
        translate_recipe recipe target (some gk) detectResp (Except.error e)
          = Except.error e)
    ∧ (pyLower language ≠ "english" →
        translate_recipe d language gko detectResp2 translateResp2
          = Except.error e →
        scrape_recipe url language "website" videoRes (Except.ok d) r2 r3 gko
          detectResp2 translateResp2 = Except.error e) := by
  refine ⟨rfl, fun h => ?_, fun hlang htr => ?_⟩
  · simp only [translate_recipe]
    rw [if_neg h]
  · show (if pyLower language ≠ "english" then
        match translate_recipe d language gko detectResp2 translateResp2 with
        | Except.error e2 => Except.error e2
        | Except.ok data2 =>
          Except.ok (data2, "recipe-scraper" ++ "-translated-" ++ language)
      else Except.ok (d, "recipe-scraper")) = Except.error e
    rw [if_pos hlang, htr]

/-- C4 witness: the three propagation modes at concrete inputs. -/
theorem c4_witness :
    translate_recipe [] "spanish" Option.none (Except.ok "English") (Except.ok [])
        = Except.error Err.valueError
    ∧ translate_recipe [] "spanish" (some "k") (Except.ok "English")
        (Except.error Err.jsonDecodeError) = Except.error Err.jsonDecodeError
    ∧ scrape_recipe "u" "spanish" "website" (Except.error Err.aiError)
        (Except.ok []) (Except.error Err.aiError) (Except.error Err.aiError)
        (some "k") (Except.ok "English") (Except.error Err.jsonDecodeError)
        = Except.error Err.jsonDecodeError := by
  have h := c4_translation_failure_propagates [] "spanish" (Except.ok "English")
    (Except.ok []) "k" Err.jsonDecodeError "u" "spanish" []
    (Except.error Err.aiError) (Except.error Err.aiError) (Except.error Err.aiError)
    (some "k") (Except.ok "English") (Except.error Err.jsonDecodeError)
  exact ⟨h.1, h.2.1 (by decide), h.2.2 (by decide) (h.2.1 (by decide))⟩

/-- C4 counterexample: a failure of the language-detection call does
NOT propagate — `detect_language` swallows the exception and returns
"unknown", so the Translation Step proceeds and succeeds; the whole
request does not fail, contradicting the claim that the detector being
unavailable makes translation fail. -/
theorem c4_counterexample :
    translate_recipe [("title", PyVal.str "Cake")] "spanish" (some "k")
        (Except.error Err.aiError)
        (Except.ok [("title", PyVal.str "Torta")])
      = Except.ok (dictUpdate [("title", PyVal.str "Cake")]
          [("title", PyVal.str "Torta")]) := rfl

/-- C9 (implicit): when the target language is not english but the
detected language already equals the target, the translation is a no-op
— the record comes back unchanged — yet the source label is still
suffixed with "-translated-" and the language. -/
theorem c9_translated_suffix_on_noop (url language gk : String) (d : PyDict)
    (videoRes r2 r3 : Except Err PyDict) (detectResp : Except Err String)
    (translateResp : Except Err PyDict)
    (hlang : pyLower language ≠ "english")
    (hdet : pyLower (detect_language (some gk) detectResp) = pyLower language) :
    scrape_recipe url language "website" videoRes (Except.ok d) r2 r3 (some gk)
        detectResp translateResp
      = Except.ok (d, "recipe-scraper" ++ "-translated-" ++ language) := by
  have hnoop : translate_recipe d language (some gk) detectResp translateResp
      = Except.ok d := by
    simp only [translate_recipe]
    rw [if_pos hdet]
  show (if pyLower language ≠ "english" then
      match translate_recipe d language (some gk) detectResp translateResp with
      | Except.error e2 => Except.error e2
      | Except.ok data2 =>
        Except.ok (data2, "recipe-scraper" ++ "-translated-" ++ language)
    else Except.ok (d, "recipe-scraper"))
    = Except.ok (d, "recipe-scraper" ++ "-translated-" ++ language)
  rw [if_pos hlang, hnoop]

/-- C9 witness: a recipe already in spanish requested in spanish keeps
its record but gets the translated suffix. -/
theorem c9_witness :
    scrape_recipe "u" "spanish" "website" (Except.error Err.aiError)
        (Except.ok [("title", PyVal.str "Tortilla")]) (Except.error Err.aiError)
        (Except.error Err.aiError) (some "k") (Except.ok "Spanish")
        (Except.error Err.aiError)
      = Except.ok ([("title", PyVal.str "Tortilla")],
          "recipe-scraper" ++ "-translated-" ++ "spanish") :=
  c9_translated_suffix_on_noop "u" "spanish" "k" [("title", PyVal.str "Tortilla")]
    (Except.error Err.aiError) (Except.error Err.aiError) (Except.error Err.aiError)
    (Except.ok "Spanish") (Except.error Err.aiError) (by decide) (by decide)

theorem plookup_append (d1 d2 : PyDict) (k : String) :
    plookup (d1 ++ d2) k
      = match plookup d1 k with
        | some v => some v
        | Option.none => plookup d2 k := by
  induction d1 with
  | nil => rfl
  | cons kv rest ih =>
    simp only [List.cons_append, plookup]
    by_cases h : kv.1 = k
    · rw [if_pos h, if_pos h]
    · rw [if_neg h, if_neg h]; exact ih

theorem plookup_filter_of_none {upd : PyDict} (p : String × PyVal → Bool)
    {k : String} (h : plookup upd k = Option.none) :
    plookup (upd.filter p) k = Option.none := by
  induction upd with
  | nil => rfl
  | cons kv rest ih =>
    rw [plookup] at h
    by_cases hk : kv.1 = k
    · rw [if_pos hk] at h; exact absurd h (by simp)
    · rw [if_neg hk] at h
      rw [List.filter_cons]
      by_cases hp : p kv = true
      · rw [if_pos hp, plookup, if_neg hk]; exact ih h
      · rw [if_neg hp]; exact ih h

theorem plookup_dictUpdate_frame (d upd : PyDict) (k : String)
    (h : plookup upd k = Option.none) :
    plookup (dictUpdate d upd) k = plookup d k := by
  unfold dictUpdate
  rw [plookup_append,
    plookup_map_assoc d (fun a b => (plookup upd a).getD b) k, h]
  cases hd : plookup d k with
  | none =>
    simp only [Option.map_none']
    exact plookup_filter_of_none _ h
  | some v => simp

theorem plookup_dictUpdate_overwrite (d upd : PyDict) (k : String) (v : PyVal)
    (hd : (plookup d k).isSome = true) (hu : plookup upd k = some v) :
    plookup (dictUpdate d upd) k = some v := by
  unfold dictUpdate
  rw [plookup_append,
    plookup_map_assoc d (fun a b => (plookup upd a).getD b) k, hu]
  obtain ⟨v0, hv0⟩ := Option.isSome_iff_exists.mp hd
  rw [hv0]
  rfl

/-- C7 counterexample: the source merges the parsed AI response into
the record with `dict.update`, not restricted to the four translatable
fields — an AI response carrying a `url` key overwrites the field
`url` of the record, which the claim says is preserved untouched. -/
theorem c7_counterexample :
    translate_recipe
        [("title", PyVal.str "Cake"), ("url", PyVal.str "https://orig")]
        "spanish" (some "k") (Except.ok "English")
        (Except.ok [("url", PyVal.str "https://evil")])
      = Except.ok [("title", PyVal.str "Cake"), ("url", PyVal.str "https://evil")]
    ∧ ("https://evil" : String) ≠ "https://orig" :=
  ⟨rfl, by decide⟩

/-- C7 (amended): the record is updated with every key of the parsed
AI response; when that response carries only translatable keys (as the
prompt instructs), exactly those fields are overwritten with the
translated values and every other field of the record is preserved
untouched. -/
theorem c7_translation_frame (recipe td : PyDict) (target gk : String)
    (detectResp : Except Err String)
    (hkeys : ∀ k, k ∈ dictKeys td → k ∈ translatableFields)
    (hdet : pyLower (detect_language (some gk) detectResp) ≠ pyLower target) :
    translate_recipe recipe target (some gk) detectResp (Except.ok td)
        = Except.ok (dictUpdate recipe td)
    ∧ (∀ k, k ∉ translatableFields →
        plookup (dictUpdate recipe td) k = plookup recipe k)
    ∧ (∀ k v, (plookup recipe k).isSome = true → plookup td k = some v →
        plookup (dictUpdate recipe td) k = some v) := by
  refine ⟨?_, ?_, ?_⟩
  · simp only [translate_recipe]
    rw [if_neg hdet]
  · intro k hk
    exact plookup_dictUpdate_frame recipe td k
      (plookup_eq_none_of_not_mem fun hmem => hk (hkeys k hmem))
  · intro k v hd hu
    exact plookup_dictUpdate_overwrite recipe td k v hd hu

/-- C7 witness: a response translating only the title overwrites the
title and leaves the url untouched. -/
theorem c7_witness :
    translate_recipe [("title", PyVal.str "Cake"), ("url", PyVal.str "u")]
        "spanish" (some "k") (Except.ok "English")
        (Except.ok [("title", PyVal.str "Torta")])
      = Except.ok (dictUpdate [("title", PyVal.str "Cake"), ("url", PyVal.str "u")]
          [("title", PyVal.str "Torta")])
    ∧ plookup (dictUpdate [("title", PyVal.str "Cake"), ("url", PyVal.str "u")]
          [("title", PyVal.str "Torta")]) "url"
        = plookup [("title", PyVal.str "Cake"), ("url", PyVal.str "u")] "url"
    ∧ plookup (dictUpdate [("title", PyVal.str "Cake"), ("url", PyVal.str "u")]
          [("title", PyVal.str "Torta")]) "title" = some (PyVal.str "Torta") := by
  have h := c7_translation_frame
    [("title", PyVal.str "Cake"), ("url", PyVal.str "u")]
    [("title", PyVal.str "Torta")] "spanish" "k" (Except.ok "English")
    (by decide) (by decide)
  exact ⟨h.1, h.2.1 "url" (by decide),
    h.2.2 "title" (PyVal.str "Torta") (by decide) rfl⟩

theorem plookup_map_set (d : PyDict) (k : String) (v : PyVal) :
    plookup (d.map fun kv => if kv.1 = k then (k, v) else kv) k
      = if (plookup d k).isSome = true then some v else Option.none := by
  induction d with
  | nil => rfl
  | cons kv rest ih =>
    simp only [List.map_cons]
    by_cases hk : kv.1 = k
    · rw [if_pos hk]
      simp [plookup, hk]
    · rw [if_neg hk]
      simp [plookup, hk, ih]

theorem plookup_map_set_other (d : PyDict) (k : String) (v : PyVal)
    (k2 : String) (h : k ≠ k2) :
    plookup (d.map fun kv => if kv.1 = k then (k, v) else kv) k2
      = plookup d k2 := by
  induction d with
  | nil => rfl
  | cons kv rest ih =>
    simp only [List.map_cons]
    by_cases hk : kv.1 = k
    · rw [if_pos hk]
      have h2 : kv.1 ≠ k2 := hk ▸ h
      simp [plookup, h, h2, ih]
    · rw [if_neg hk]
      by_cases hk2 : kv.1 = k2
      · simp [plookup, hk2]
      · simp [plookup, hk2, ih]

theorem plookup_dictSet_same (d : PyDict) (k : String) (v : PyVal) :
    plookup (dictSet d k v) k = some v := by
  unfold dictSet
  by_cases h : (plookup d k).isSome = true
  · rw [if_pos h, plookup_map_set, if_pos h]
  · rw [if_neg h, plookup_append]
    have hnone : plookup d k = Option.none := by
      cases hd : plookup d k
      · rfl
      · exact absurd (by rw [hd]; rfl) h
    rw [hnone]
    simp [plookup]

theorem plookup_dictSet_other (d : PyDict) (k : String) (v : PyVal)
    (k2 : String) (h : k ≠ k2) :
    plookup (dictSet d k v) k2 = plookup d k2 := by
  unfold dictSet
  by_cases hs : (plookup d k).isSome = true
  · rw [if_pos hs]
    exact plookup_map_set_other d k v k2 h
  · rw [if_neg hs, plookup_append]
    cases hd : plookup d k2 with
    | some w => rfl
    | none => simp [plookup, h]

/-- C5 counterexample: on the structured-scraper path the `url` field
of the final record is whatever the scraping library reported, not the
original input URL — a scraper result whose url differs from the input
yields a successful response whose record url is not the input URL. -/
theorem c5_counterexample :
    scrape_recipe "https://example.com/a" "english" "website"
        (Except.error Err.aiError)
        (try_recipe_scraper
          (Except.ok [("url", PyVal.str "https://example.com/b")])
          (fun _ => ⟨"", Option.none⟩))
        (Except.error Err.aiError) (Except.error Err.aiError)
        Option.none (Except.error Err.aiError) (Except.error Err.aiError)
      = Except.ok
          (format_recipe_scrapers_data
            [("url", PyVal.str "https://example.com/b")]
            (fun _ => ⟨"", Option.none⟩),
          "recipe-scraper")
    ∧ plookup
        (format_recipe_scrapers_data
          [("url", PyVal.str "https://example.com/b")]
          (fun _ => ⟨"", Option.none⟩)) "url"
        = some (PyVal.str "https://example.com/b")
    ∧ ("https://example.com/b" : String) ≠ "https://example.com/a" :=
  ⟨rfl, rfl, by decide⟩

/-- C5 (amended): only the video path forces the `url` field to the
original input URL; the structured-scraper path sets it to the url
field of the own data of the scraping library (empty string when absent),
with no guarantee that it equals the input URL. -/
theorem c5_url_field (url platform gk : String)
    (oembedResp : Except Err PyDict) (upload upload2 : PyVal → UploadResult)
    (raw aiDict : PyDict) :
    (∃ out, try_video_extraction url platform (some gk) oembedResp upload
        (Except.ok (PyVal.dict aiDict)) = Except.ok out
      ∧ plookup out "url" = some (PyVal.str url))
    ∧ plookup (format_recipe_scrapers_data raw upload2) "url"
        = some (dget raw "url" (PyVal.str "")) := by
  refine ⟨⟨_, rfl, ?_⟩, rfl⟩
  rw [plookup_dictSet_other _ _ _ _ (by decide),
    plookup_dictSet_other _ _ _ _ (by decide), plookup_dictSet_same]

theorem scanBlock_agree (v : PyVal)
    (h : ∀ data : PyDict, v = PyVal.dict data →
      ∃ s, dget data "@type" (PyVal.str "") = PyVal.str s) :
    jsonLdScanBlock v = Except.ok (claimScanBlock v) := by
  cases v with
  | none => rfl
  | bool b => rfl
  | int n => rfl
  | str s => rfl
  | list items => rfl
  | dict data =>
    obtain ⟨s, hs⟩ := h data rfl
    simp only [jsonLdScanBlock, claimScanBlock, hs, claimTypeHit]
    by_cases h1 : (s == "Recipe" || s == "FoodRecipe") = true
    · simp [h1]
    · simp only [h1, Bool.false_eq_true, if_false, Bool.false_or]
      by_cases h2 : strContains (pyLower s) "recipe" = true
      · simp [h2]
      · simp only [h2, Bool.false_eq_true, if_false]
        cases hg : plookup data "@graph" with
        | none => by_cases h3 : is_recipe_data data = true <;> simp [h3]
        | some g =>
          cases g with
          | list gl => simp
          | none => by_cases h3 : is_recipe_data data = true <;> simp [h3]
          | bool b => by_cases h3 : is_recipe_data data = true <;> simp [h3]
          | int n => by_cases h3 : is_recipe_data data = true <;> simp [h3]
          | str s2 => by_cases h3 : is_recipe_data data = true <;> simp [h3]
          | dict dd => by_cases h3 : is_recipe_data data = true <;> simp [h3]

/-- C6: on script blocks whose top-level dict `@type` values are
strings (the only case the claim describes — a non-string `@type` makes
the source raise and skip the block), the scanning loop of the source agrees
with the scan described by the specification: parse each block; scan a
list for entries satisfying the recipe predicate; for a dict check
its `@type` directly, else scan its `@graph` array with the same predicate,
else apply the predicate to the dict itself; skip malformed blocks;
first match wins and scanning stops there. -/
theorem c6_json_ld_scan_matches_spec (blocks : List (Except Unit PyVal))
    (h : ∀ data : PyDict, Except.ok (PyVal.dict data) ∈ blocks →
      ∃ s, dget data "@type" (PyVal.str "") = PyVal.str s) :
    try_json_ld_scan blocks = claimScan blocks := by
  induction blocks with
  | nil => rfl
  | cons b rest ih =>
    have hrest : ∀ data : PyDict, Except.ok (PyVal.dict data) ∈ rest →
        ∃ s, dget data "@type" (PyVal.str "") = PyVal.str s :=
      fun data hm => h data (List.mem_cons_of_mem _ hm)
    cases b with
    | error u =>
      simp only [try_json_ld_scan, claimScan, List.findSome?_cons]
      exact ih hrest
    | ok v =>
      have hv := scanBlock_agree v
        (fun data hd => h data (by rw [← hd]; exact List.mem_cons_self _ _))
      simp only [try_json_ld_scan, claimScan, List.findSome?_cons, hv]
      cases hc : claimScanBlock v with
      | some r => simp [hc]
      | none =>
        simp only [hc]
        exact ih hrest

/-- C6 witness: a malformed block, a non-recipe block and a
Recipe-typed block — the source scan and the specification scan agree
(both pick the Recipe block). -/
theorem c6_witness :
    try_json_ld_scan
        [Except.error (),
         Except.ok (PyVal.dict [("@type", PyVal.str "WebSite")]),
         Except.ok (PyVal.dict [("@type", PyVal.str "Recipe"),
           ("name", PyVal.str "Pie")])]
      = claimScan
        [Except.error (),
         Except.ok (PyVal.dict [("@type", PyVal.str "WebSite")]),
         Except.ok (PyVal.dict [("@type", PyVal.str "Recipe"),
           ("name", PyVal.str "Pie")])] := by
  apply c6_json_ld_scan_matches_spec
  intro data hm
  simp only [List.mem_cons, List.not_mem_nil, or_false] at hm
  rcases hm with hm | hm | hm
  · exact Except.noConfusion hm
  · have h1 := Except.ok.inj hm
    have h2 : data = [("@type", PyVal.str "WebSite")] := by injection h1
    subst h2
    exact ⟨"WebSite", rfl⟩
  · have h1 := Except.ok.inj hm
    have h2 : data = [("@type", PyVal.str "Recipe"), ("name", PyVal.str "Pie")] := by
      injection h1
    subst h2
    exact ⟨"Recipe", rfl⟩

end RecipeScraper
